import Mathlib

/-!
Verification of the Download Controller (DCS) core against its sources.

The definitions below are a shallow embedding of the authoritative
`DataRepository` variant (`src/dcs/core/data_repository.py` of the newer layout,
the one using `s3_endpoint_alias`, `cache_timeout` and EKSS integration), of the
work-order-token policies (`dcs/core/auth_policies.py`), of the JWT validation
wrapper (`dcs/core/jwt_validation.py`) and of the inbound event translator
(`dcs/adapters/inbound/event_sub.py`).

Modelling conventions:
- instants are integers (seconds); `timedelta(days=n)` is `n * 86400` seconds;
- the DAO is an association list of records keyed by `file_id`
  (`find?`/`insert`/`update`/`delete` mirror the hexkit DAO operations);
- each S3 object storage is a list of stored objects plus an explicit oracle
  `failing` naming the (bucket, object) pairs whose deletion fails with an
  `ObjectStorageProtocolError`;
- the EKSS secret store is a list of secret ids plus an oracle `failing`
  naming the secrets whose HTTP deletion fails with a `RequestFailedError`;
- Python exceptions become constructors of the `RepoError` type; the result of
  a repository method is an `Except` value together with the post-state and
  the list of published events.
-/

/-- Immutable metadata of a registered file (`models.DrsObjectBase`). The
`models.py` module of the authoritative layout is absent from the sources; the
field set is taken from the spec's data model section and from the fields the
repository code reads. -/
structure DrsObjectBase where
  file_id : String
  decryption_secret_id : String
  decrypted_sha256 : String
  decrypted_size : Nat
  creation_date : Int
deriving Repr, DecidableEq

/-- Embeds `models.DrsObject`: base metadata plus staging-side attributes. -/
structure DrsObject extends DrsObjectBase where
  object_id : String
  s3_endpoint_alias : String
deriving Repr, DecidableEq

/-- Embeds `models.AccessTimeDrsObject`: the persisted shape, adding `last_accessed`. -/
structure AccessTimeDrsObject extends DrsObject where
  last_accessed : Int
deriving Repr, DecidableEq

/-- Embeds `models.DrsObjectWithUri`: a DRS object plus its derived `self_uri`. -/
structure DrsObjectWithUri extends DrsObject where
  self_uri : String
deriving Repr, DecidableEq

/-- Embeds `models.DrsObjectWithAccess`: adds the short-lived presigned URL. -/
structure DrsObjectWithAccess extends DrsObjectWithUri where
  access_url : String
deriving Repr, DecidableEq

/-- Modelled from the spec: `models.DrsObjectResponseModel` is part of the
absent `models.py`; the spec's HTTP section gives the client-facing shape
(`id`, `self_uri`, `size` (encrypted), `created_time`, `checksums`,
`access_methods`). -/
structure DrsObjectResponseModel where
  id : String
  self_uri : String
  size : Nat
  created_time : Int
  checksums : List String
  access_methods : List String
deriving Repr, DecidableEq

/-- Embeds `DrsObjectWithAccess.convert_to_drs_response_model(size)`: build the
client-facing response carrying the encrypted size. -/
def convert_to_drs_response_model (d : DrsObjectWithAccess) (size : Nat) :
    DrsObjectResponseModel :=
  { id := d.file_id
    self_uri := d.self_uri
    size := size
    created_time := d.creation_date
    checksums := [d.decrypted_sha256]
    access_methods := [d.access_url] }

/-- Embeds `DataRepositoryConfig`: the config parameters the repository reads. -/
structure DataRepositoryConfig where
  outbox_bucket : String
  drs_server_uri : String
  retry_access_after : Int
  ekss_base_url : String
  presigned_url_expires_after : Nat
  cache_timeout : Int
deriving Repr, DecidableEq

/-- Errors of the repository layer. Python exception classes become
constructors: `KeyError` is the plain exception raised by the dict lookup in
`ObjectStorages.__getitem__`; `ResourceAlreadyExistsError` is the hexkit DAO
signal on duplicate insert; `StorageAliasNotConfiguredError` and
`DuplicateEntryError` are exception classes declared by the ports/tests of the
repository, kept here so that theorems can state whether the code ever raises
them. -/
inductive RepoError where
  | DrsObjectNotFoundError (drs_id : String)
  | RetryAccessLaterError (retry_after : Int)
  | CleanupError (object_id : String)
  | StorageAliasNotConfiguredError (alias_name : String)
  | KeyError (key : String)
  | ResourceAlreadyExistsError (id_ : String)
  | DuplicateEntryError
  | ObjectStorageProtocolError
  | ObjectNotFoundError
  | SecretNotFoundError
  | RequestFailedError
deriving Repr, DecidableEq

/-- Events published through the `EventPublisherPort`. The payloads are the
arguments the repository passes to the publisher. -/
inductive Event where
  | unstaged_download_requested (drs_object : DrsObjectWithUri)
      (s3_endpoint_alias : String) (target_bucket_id : String)
  | download_served (drs_object : DrsObjectWithUri)
      (s3_endpoint_alias : String) (target_bucket_id : String)
  | file_registered (drs_object : DrsObjectWithUri)
  | file_deleted (file_id : String)
deriving Repr, DecidableEq

/-! ### DAO (hexkit `DaoNaturalId` keyed by `file_id`) -/

/-- The DRS-object DAO: the list of persisted records. -/
abbrev Dao := List AccessTimeDrsObject

/-- Embeds `dao.get_by_id(file_id)`: `none` models `ResourceNotFoundError`. -/
def dao_get_by_id (dao : Dao) (id_ : String) : Option AccessTimeDrsObject :=
  dao.find? (fun r => r.file_id == id_)

/-- Embeds `dao.find_one(mapping={"object_id": oid})`: `none` models
`ResourceNotFoundError`. -/
def dao_find_by_object_id (dao : Dao) (oid : String) : Option AccessTimeDrsObject :=
  dao.find? (fun r => r.object_id == oid)

/-- Embeds `dao.insert(record)`: duplicate `file_id` raises the hexkit
`ResourceAlreadyExistsError`. -/
def dao_insert (dao : Dao) (r : AccessTimeDrsObject) : Except RepoError Dao :=
  if dao.any (fun x => x.file_id == r.file_id) then
    .error (.ResourceAlreadyExistsError r.file_id)
  else
    .ok (dao ++ [r])

/-- Embeds `dao.update(record)`: replaces the record with the same `file_id`; `none`
models `ResourceNotFoundError` when no such record exists. -/
def dao_update (dao : Dao) (r : AccessTimeDrsObject) : Option Dao :=
  if dao.any (fun x => x.file_id == r.file_id) then
    some (dao.map (fun x => if x.file_id == r.file_id then r else x))
  else
    none

/-- Embeds `dao.delete(id_)`: removes the record with the given `file_id`. -/
def dao_delete (dao : Dao) (id_ : String) : Dao :=
  dao.filter (fun x => !(x.file_id == id_))

/-! ### Object storage (S3 adapter over one endpoint) -/

/-- One object stored in an S3 endpoint. -/
structure StoredObject where
  bucket_id : String
  object_id : String
  size : Nat
deriving Repr, DecidableEq

/-- One S3-compatible object storage. `failing` is the explicit oracle for the
(bucket, object) pairs whose deletion fails with an
`ObjectStorageProtocolError` at the S3 layer. -/
structure ObjectStorage where
  objects : List StoredObject
  failing : List (String × String)
deriving Repr, DecidableEq

/-- Embeds `object_storage.does_object_exist(bucket_id, object_id)`. -/
def does_object_exist (s : ObjectStorage) (bucket_id object_id : String) : Bool :=
  s.objects.any (fun o => o.bucket_id == bucket_id && o.object_id == object_id)

/-- Embeds `object_storage.get_object_size(bucket_id, object_id)`: `none` models the
object being absent. -/
def get_object_size (s : ObjectStorage) (bucket_id object_id : String) : Option Nat :=
  (s.objects.find? (fun o => o.bucket_id == bucket_id && o.object_id == object_id)).map
    (fun o => o.size)

/-- Embeds `object_storage.get_object_download_url(...)`: the presigned URL produced
by the S3 library, modelled as a pure function of its inputs. -/
def get_object_download_url (bucket_id object_id : String) (expires_after : Nat) :
    String :=
  "https://" ++ bucket_id ++ "/" ++ object_id ++ "?expires=" ++ toString expires_after

/-- Embeds `object_storage.list_all_object_ids(bucket_id)`. -/
def list_all_object_ids (s : ObjectStorage) (bucket_id : String) : List String :=
  (s.objects.filter (fun o => o.bucket_id == bucket_id)).map (fun o => o.object_id)

/-- Embeds `object_storage.delete_object(bucket_id, object_id)`: raises
`ObjectStorageProtocolError` for pairs in the failure oracle and
`ObjectNotFoundError` when the object is absent. -/
def delete_object (s : ObjectStorage) (bucket_id object_id : String) :
    Except RepoError ObjectStorage :=
  if (bucket_id, object_id) ∈ s.failing then
    .error .ObjectStorageProtocolError
  else if does_object_exist s bucket_id object_id then
    .ok { s with
          objects := s.objects.filter
            (fun o => !(o.bucket_id == bucket_id && o.object_id == object_id)) }
  else
    .error .ObjectNotFoundError

/-- Embeds `ObjectStorages`: the alias-indexed collection of configured storages. -/
structure ObjectStorages where
  object_storages : List (String × ObjectStorage)
deriving Repr, DecidableEq

/-- Embeds `ObjectStorages.__getitem__(key)`: a plain dict lookup; `none` models the
Python `KeyError` raised on an unconfigured alias. -/
def storages_get (ss : ObjectStorages) (key : String) : Option ObjectStorage :=
  (ss.object_storages.find? (fun p => p.fst == key)).map (fun p => p.snd)

/-- Write a storage back under its alias (the in-place mutation of the shared
storage object in the source). -/
def storages_set (ss : ObjectStorages) (key : String) (s : ObjectStorage) :
    ObjectStorages :=
  { object_storages :=
      ss.object_storages.map (fun p => if p.fst == key then (p.fst, s) else p) }

/-! ### EKSS client -/

/-- The EKSS secret store as seen through the HTTP client: the stored secret
ids plus an oracle of secrets whose deletion call fails at the transport
level (`RequestFailedError` / `BadResponseCodeError`). -/
structure Ekss where
  secrets : List String
  failing : List String
deriving Repr, DecidableEq

/-- Embeds `delete_secret_from_ekss(secret_id, api_base)`: 404 becomes
`SecretNotFoundError`; transport failures are fatal. -/
def delete_secret_from_ekss (e : Ekss) (secret_id : String) : Except RepoError Ekss :=
  if secret_id ∈ e.failing then
    .error .RequestFailedError
  else if secret_id ∈ e.secrets then
    .ok { e with secrets := e.secrets.filter (fun s => !(s == secret_id)) }
  else
    .error .SecretNotFoundError

/-! ### Repository state and results -/

/-- The state the `DataRepository` orchestrates: database, object storages and
the EKSS secret store. -/
structure RepoState where
  dao : Dao
  storages : ObjectStorages
  ekss : Ekss
deriving Repr, DecidableEq

/-- Outcome of one repository method: the returned value or raised error, the
post-state, and the events published during the call (in order). -/
structure StepResult (α : Type) where
  res : Except RepoError α
  state : RepoState
  events : List Event
deriving Repr

/-- Embeds `DataRepository._get_drs_uri(drs_id)`. -/
def get_drs_uri (cfg : DataRepositoryConfig) (drs_id : String) : String :=
  cfg.drs_server_uri ++ drs_id

/-- Embeds `DataRepository._get_model_with_self_uri(drs_object)`. -/
def get_model_with_self_uri (cfg : DataRepositoryConfig) (d : DrsObject) :
    DrsObjectWithUri :=
  { toDrsObject := d, self_uri := get_drs_uri cfg d.file_id }

/-- Embeds `DataRepository.access_drs_object(drs_id)`, translated line by line from
the source. `now` is the value `utc_dates.now_as_utc()` returns during the
call. -/
def access_drs_object (cfg : DataRepositoryConfig) (st : RepoState) (now : Int)
    (drs_id : String) : StepResult DrsObjectResponseModel :=
  match dao_get_by_id st.dao drs_id with
  | none => ⟨.error (.DrsObjectNotFoundError drs_id), st, []⟩
  | some r0 =>
    let drs_object := r0.toDrsObject
    let drs_object_with_uri := get_model_with_self_uri cfg drs_object
    match storages_get st.storages drs_object.s3_endpoint_alias with
    | none => ⟨.error (.KeyError drs_object.s3_endpoint_alias), st, []⟩
    | some object_storage =>
      if !(does_object_exist object_storage cfg.outbox_bucket drs_object.object_id) then
        ⟨.error (.RetryAccessLaterError cfg.retry_access_after), st,
          [.unstaged_download_requested drs_object_with_uri
            drs_object.s3_endpoint_alias cfg.outbox_bucket]⟩
      else
        match dao_update st.dao { r0 with last_accessed := now } with
        | none => ⟨.error (.DrsObjectNotFoundError drs_id), st, []⟩
        | some dao1 =>
          let drs_object_with_access : DrsObjectWithAccess :=
            { toDrsObjectWithUri := drs_object_with_uri
              access_url := get_object_download_url cfg.outbox_bucket
                drs_object.object_id cfg.presigned_url_expires_after }
          match get_object_size object_storage cfg.outbox_bucket drs_object.object_id with
          | none =>
            ⟨.error .ObjectNotFoundError, { st with dao := dao1 },
              [.download_served drs_object_with_uri drs_object.s3_endpoint_alias
                cfg.outbox_bucket]⟩
          | some encrypted_size =>
            ⟨.ok (convert_to_drs_response_model drs_object_with_access encrypted_size),
              { st with dao := dao1 },
              [.download_served drs_object_with_uri drs_object.s3_endpoint_alias
                cfg.outbox_bucket]⟩

/-- Embeds `contextlib.suppress(SecretNotFoundError)` around the EKSS deletion: a
suppressed miss leaves the store as it was. -/
def suppress_secret_not_found (r : Except RepoError Ekss) (orig : Ekss) :
    Except RepoError Ekss :=
  match r with
  | .error .SecretNotFoundError => .ok orig
  | other => other

/-- Embeds `contextlib.suppress(object_storage.ObjectNotFoundError)` around the outbox
deletion. -/
def suppress_object_not_found (r : Except RepoError ObjectStorage)
    (orig : ObjectStorage) : Except RepoError ObjectStorage :=
  match r with
  | .error .ObjectNotFoundError => .ok orig
  | other => other

/-- Embeds `DataRepository.delete_file(file_id)`, translated line by line from the
source: DAO miss is a no-op; the EKSS secret is deleted suppressing only
`SecretNotFoundError`; the outbox object is deleted suppressing only
`ObjectNotFoundError`; then the DAO row is deleted and one `file_deleted`
event is published. -/
def delete_file (cfg : DataRepositoryConfig) (st : RepoState) (file_id : String) :
    StepResult Unit :=
  match dao_get_by_id st.dao file_id with
  | none => ⟨.ok (), st, []⟩
  | some drs_object =>
    match suppress_secret_not_found
        (delete_secret_from_ekss st.ekss drs_object.decryption_secret_id) st.ekss with
    | .error e => ⟨.error e, st, []⟩
    | .ok ekss1 =>
      match storages_get st.storages drs_object.s3_endpoint_alias with
      | none =>
        ⟨.error (.KeyError drs_object.s3_endpoint_alias),
          { st with ekss := ekss1 }, []⟩
      | some object_storage =>
        match suppress_object_not_found
            (delete_object object_storage cfg.outbox_bucket drs_object.object_id)
            object_storage with
        | .error e => ⟨.error e, { st with ekss := ekss1 }, []⟩
        | .ok storage1 =>
          ⟨.ok (),
            { dao := dao_delete st.dao file_id
              storages := storages_set st.storages drs_object.s3_endpoint_alias storage1
              ekss := ekss1 },
            [.file_deleted file_id]⟩

/-- Embeds `DataRepository.register_new_file(file, s3_endpoint_alias)`, translated
from the source. `object_id` is the value `str(uuid.uuid4())` returns and
`now` the value `utc_dates.now_as_utc()` returns during the call. The DAO
insert is not wrapped in any try/except: a duplicate `file_id` lets the
hexkit `ResourceAlreadyExistsError` propagate. -/
def register_new_file (cfg : DataRepositoryConfig) (st : RepoState) (now : Int)
    (file : DrsObjectBase) (object_id : String) (s3_endpoint_alias : String) :
    StepResult Unit :=
  let drs_object : DrsObject :=
    { toDrsObjectBase := file
      object_id := object_id
      s3_endpoint_alias := s3_endpoint_alias }
  let file_with_access_time : AccessTimeDrsObject :=
    { toDrsObject := drs_object, last_accessed := now }
  match dao_insert st.dao file_with_access_time with
  | .error e => ⟨.error e, st, []⟩
  | .ok dao1 =>
    ⟨.ok (), { st with dao := dao1 },
      [.file_registered (get_model_with_self_uri cfg drs_object)]⟩

/-- The for-loop body of `DataRepository.cleanup_outbox`, iterating over the
listed outbox object ids: a DAO miss or a failed deletion raises
`CleanupError(object_id)` and aborts the sweep; deletions already performed
persist in the returned storage. -/
def cleanup_loop (cfg : DataRepositoryConfig) (dao : Dao) (threshold : Int)
    (storage : ObjectStorage) :
    List String → Except RepoError Unit × ObjectStorage
  | [] => (.ok (), storage)
  | object_id :: rest =>
    match dao_find_by_object_id dao object_id with
    | none => (.error (.CleanupError object_id), storage)
    | some drs_object =>
      if drs_object.last_accessed ≤ threshold then
        match delete_object storage cfg.outbox_bucket object_id with
        | .error _ => (.error (.CleanupError object_id), storage)
        | .ok storage1 => cleanup_loop cfg dao threshold storage1 rest
      else
        cleanup_loop cfg dao threshold storage rest

/-- Embeds `DataRepository.cleanup_outbox(s3_endpoint_alias)`, translated from the
source. `now` is the value `utc_dates.now_as_utc()` returns; the threshold is
`now - timedelta(days=cache_timeout)`. -/
def cleanup_outbox (cfg : DataRepositoryConfig) (st : RepoState) (now : Int)
    (s3_endpoint_alias : String) : StepResult Unit :=
  let threshold := now - cfg.cache_timeout * 86400
  match storages_get st.storages s3_endpoint_alias with
  | none => ⟨.error (.KeyError s3_endpoint_alias), st, []⟩
  | some object_storage =>
    let object_ids := list_all_object_ids object_storage cfg.outbox_bucket
    let out := cleanup_loop cfg st.dao threshold object_storage object_ids
    ⟨out.fst, { st with storages := storages_set st.storages s3_endpoint_alias out.snd },
      []⟩

/-! ### JWT validation (`dcs/core/jwt_validation.py`) -/

/-- The exceptions `jwt.JWT(jwt=token, key=key, expected_type="JWS")` raises,
as exercised by `tests/test_tokens.py`: `InvalidJWSSignature` when the
signature does not verify under the key, `JWTExpired` when the `exp` claim is
in the past, and `ValueError("Token format unrecognized")` on a parse or
structural failure. -/
inductive JwError where
  | InvalidJWSSignature
  | JWTExpired
  | TokenFormatUnrecognized
deriving Repr, DecidableEq

/-- A serialized JWS work-order token, modelled symbolically: whether the
serialization parses as a JWS, which public key verifies its signature, its
`exp` claim, and its claim map. -/
structure SignedToken where
  well_formed : Bool
  signed_with : String
  exp : Int
  claims : List (String × String)
deriving Repr, DecidableEq

/-- Embeds `get_validated_token(token, signing_pubkey)` from the source: a thin
wrapper around `jwt.JWT(jwt=token, key=key, expected_type="JWS")`. The
jwcrypto library first parses the serialization (failure:
`ValueError("Token format unrecognized")`), then verifies the signature
against the supplied key (failure: `InvalidJWSSignature`), then validates the
`exp` claim against the current time (failure: `JWTExpired`); on success the
claim map is returned. `now` is the instant at which the library checks
`exp`. -/
def get_validated_token (token : SignedToken) (signing_pubkey : String) (now : Int) :
    Except JwError (List (String × String)) :=
  if !token.well_formed then
    .error .TokenFormatUnrecognized
  else if !(token.signed_with == signing_pubkey) then
    .error .InvalidJWSSignature
  else if token.exp < now then
    .error .JWTExpired
  else
    .ok token.claims

/-- The token-error kinds of the spec's taxonomy. -/
inductive TokenError where
  | TokenSignatureError
  | TokenExpiredError
  | TokenMalformedError
deriving Repr, DecidableEq

/-- Modelled from the spec: the HTTP auth adapter that surfaces the jwcrypto
exceptions as the `TokenSignatureError` / `TokenExpiredError` /
`TokenMalformedError` kinds is absent from the sources; the spec's token
validator section names the correspondence (signature failure, expiry, and
any parse or structural failure respectively). -/
def to_token_error (e : JwError) : TokenError :=
  match e with
  | .InvalidJWSSignature => .TokenSignatureError
  | .JWTExpired => .TokenExpiredError
  | .TokenFormatUnrecognized => .TokenMalformedError

/-- Token validation with its errors surfaced as the spec's kinds. -/
def get_validated_token_kinds (token : SignedToken) (signing_pubkey : String)
    (now : Int) : Except TokenError (List (String × String)) :=
  match get_validated_token token signing_pubkey now with
  | .error e => .error (to_token_error e)
  | .ok claims => .ok claims

/-! ### Work-order-token policy (`dcs/core/auth_policies.py`) -/

/-- The `type` claim of a work-order token: `Literal["download"] |
Literal["upload"]`. -/
inductive WorkType where
  | download
  | upload
deriving Repr, DecidableEq

/-- Embeds `WorkOrderToken`: the validated claim set of a work-order token. -/
structure WorkOrderToken where
  type : WorkType
  file_id : String
  user_id : String
  user_public_crypt4gh_key : String
  full_user_name : String
  email : String
deriving Repr, DecidableEq

/-- Embeds `WorkOrderToken.matches_type_and_file_id(file_id)`, translated from the
source: raises `ValueError` (the carried string is the exception message) on
a wrong endpoint type or a wrong file id, and returns nothing otherwise. -/
def matches_type_and_file_id (t : WorkOrderToken) (file_id : String) :
    Except String Unit :=
  if !(t.type == WorkType.download) then
    .error "Got token for wrong endpoint type."
  else if !(t.file_id == file_id) then
    .error "Got token for wrong file_id."
  else
    .ok ()

/-- Modelled from the spec: the HTTP-adapter caller that converts the
`ValueError` raised by `WorkOrderToken.matches_type_and_file_id` into the
`TokenMalformedError` kind (a 403) is absent from the sources; the spec's
token validator section states that a type or file-id mismatch is surfaced as
`TokenMalformedError`. -/
def caller_work_order_check (t : WorkOrderToken) (url_file_id : String) :
    Except TokenError Unit :=
  match matches_type_and_file_id t url_file_id with
  | .error _ => .error .TokenMalformedError
  | .ok () => .ok ()

/-! ### Inbound event translator (`dcs/adapters/inbound/event_sub.py`) -/

/-- Embeds `EventSubTranslatorConfig`. -/
structure EventSubTranslatorConfig where
  files_to_register_topic : String
  files_to_register_type : String
  files_to_delete_topic : String
  files_to_delete_type : String
deriving Repr, DecidableEq

/-- The fields of the `FileInternallyRegistered` event schema that the
translator reads. -/
structure FileInternallyRegistered where
  file_id : String
  decryption_secret_id : String
  decrypted_sha256 : String
  decrypted_size : Nat
  upload_date : Int
deriving Repr, DecidableEq

/-- The fields of the `FileDeletionRequested` event schema that the
translator reads. -/
structure FileDeletionRequested where
  file_id : String
deriving Repr, DecidableEq

/-- An inbound JSON payload, modelled by how `get_validated_payload` fares on
it for each schema: `none` means schema validation fails. -/
structure JsonObject where
  as_file_internally_registered : Option FileInternallyRegistered
  as_file_deletion_requested : Option FileDeletionRequested
deriving Repr, DecidableEq

/-- The `DrsObject` shape the subscriber of this repository variant builds in
`_consume_files_to_register` (its models module has no `s3_endpoint_alias`
field). -/
structure ConsumedDrsObject where
  file_id : String
  object_id : String
  decryption_secret_id : String
  decrypted_sha256 : String
  decrypted_size : Nat
  creation_date : Int
deriving Repr, DecidableEq

/-- The call the translator makes into the `DataRepositoryPort`. -/
inductive RepositoryCall where
  | register_new_file (file : ConsumedDrsObject)
  | delete_file (file_id : String)
deriving Repr, DecidableEq

/-- Errors of the translator: a schema-validation failure inside
`get_validated_payload`, or the `RuntimeError("Unexpected event of type: ...")`
that fails the message on an unknown type. -/
inductive SubError where
  | EventSchemaValidationError
  | UnexpectedEventTypeError (type_ : String)
deriving Repr, DecidableEq

/-- Embeds `EventSubTranslator._consume_validated(payload, type_, topic)`, translated
from the source (the topic argument is unused there). `object_id` is the
value `str(uuid.uuid4())` returns inside `_consume_files_to_register`. -/
def consume_validated (cfg : EventSubTranslatorConfig) (payload : JsonObject)
    (type_ : String) (object_id : String) : Except SubError RepositoryCall :=
  if type_ == cfg.files_to_register_type then
    match payload.as_file_internally_registered with
    | none => .error .EventSchemaValidationError
    | some vp =>
      .ok (.register_new_file
        { file_id := vp.file_id
          object_id := object_id
          decryption_secret_id := vp.decryption_secret_id
          decrypted_sha256 := vp.decrypted_sha256
          decrypted_size := vp.decrypted_size
          creation_date := vp.upload_date })
  else if type_ == cfg.files_to_delete_type then
    match payload.as_file_deletion_requested with
    | none => .error .EventSchemaValidationError
    | some vp => .ok (.delete_file vp.file_id)
  else
    .error (.UnexpectedEventTypeError type_)

/-- Predicate `aged(dao, threshold, oid)`: the listed outbox object with id `oid` is due
for removal, i.e. its DAO record's `last_accessed` is at or before the
threshold. -/
def aged (dao : Dao) (threshold : Int) (oid : String) : Bool :=
  match dao_find_by_object_id dao oid with
  | some d => decide (d.last_accessed ≤ threshold)
  | none => false

/-! ### Concrete fixtures used by witness theorems -/

/-- A sample registered file's immutable metadata. -/
def sample_base : DrsObjectBase := ⟨"f1", "s1", "h1", 10, 0⟩

/-- The sample file as a full DRS object stored under alias "node1". -/
def sample_drs : DrsObject := ⟨sample_base, "o1", "node1"⟩

/-- The sample file's persisted record. -/
def sample_record : AccessTimeDrsObject := ⟨sample_drs, 0⟩

/-- A sample repository configuration. -/
def sample_cfg : DataRepositoryConfig := ⟨"outbox", "drs://host/", 120, "http://ekss/", 30, 7⟩

/-- A storage holding the sample object in the outbox bucket. -/
def sample_storage : ObjectStorage := ⟨[⟨"outbox", "o1", 10⟩], []⟩

/-- A storage with an empty outbox. -/
def sample_storage_empty : ObjectStorage := ⟨[], []⟩

/-- State: sample file registered and staged. -/
def sample_state_staged : RepoState :=
  ⟨[sample_record], ⟨[("node1", sample_storage)]⟩, ⟨["s1"], []⟩⟩

/-- State: sample file registered but not staged. -/
def sample_state_unstaged : RepoState :=
  ⟨[sample_record], ⟨[("node1", sample_storage_empty)]⟩, ⟨["s1"], []⟩⟩

/-- State: sample file registered but its storage alias is not configured. -/
def sample_state_noalias : RepoState :=
  ⟨[sample_record], ⟨[]⟩, ⟨["s1"], []⟩⟩

/-- State: nothing registered. -/
def sample_state_empty : RepoState :=
  ⟨[], ⟨[("node1", sample_storage)]⟩, ⟨["s1"], []⟩⟩

/-- A record last accessed two days after the epoch (aged at day ten with a
seven-day timeout). -/
def sample_rec_a : AccessTimeDrsObject :=
  ⟨⟨⟨"fa", "sa", "ha", 1, 0⟩, "oa", "node1"⟩, 172800⟩

/-- A record last accessed five days after the epoch (fresh at day ten with a
seven-day timeout). -/
def sample_rec_b : AccessTimeDrsObject :=
  ⟨⟨⟨"fb", "sb", "hb", 1, 0⟩, "ob", "node1"⟩, 432000⟩

/-- A storage holding both cleanup-sample objects in the outbox bucket. -/
def sample_storage_two : ObjectStorage :=
  ⟨[⟨"outbox", "oa", 1⟩, ⟨"outbox", "ob", 1⟩], []⟩

/-- State for the cleanup scenario: both records registered, both staged. -/
def sample_state_cleanup : RepoState :=
  ⟨[sample_rec_a, sample_rec_b], ⟨[("node1", sample_storage_two)]⟩, ⟨[], []⟩⟩

/-! ### Theorems -/

/-- Claim C7: after signature validation, the caller's check on the work-order
claims raises `TokenMalformedError` whenever the token's type is not
"download" or its `file_id` differs from the `file_id` in the request path,
even though the signature is valid; it passes (raises nothing) exactly when
the type is "download" and the file ids match. -/
theorem claim_C7_work_order_check (t : WorkOrderToken) (url_file_id : String) :
    (caller_work_order_check t url_file_id = .error .TokenMalformedError ↔
      (t.type ≠ WorkType.download ∨ t.file_id ≠ url_file_id)) ∧
    (caller_work_order_check t url_file_id = .ok () ↔
      (t.type = WorkType.download ∧ t.file_id = url_file_id)) := by
  unfold caller_work_order_check matches_type_and_file_id
  by_cases h1 : t.type = WorkType.download <;>
    by_cases h2 : t.file_id = url_file_id <;>
      simp [h1, h2]

/-- Claim C6: token validation surfaces a signature failure as the
`TokenSignatureError` kind, an expired `exp` claim as the `TokenExpiredError`
kind, a parse or structural failure as the `TokenMalformedError` kind, and
returns the claim map on a valid token. -/
theorem claim_C6_token_validation (token : SignedToken) (key : String) (now : Int) :
    (token.well_formed = true → token.signed_with ≠ key →
      get_validated_token_kinds token key now = .error .TokenSignatureError) ∧
    (token.well_formed = true → token.signed_with = key → token.exp < now →
      get_validated_token_kinds token key now = .error .TokenExpiredError) ∧
    (token.well_formed = false →
      get_validated_token_kinds token key now = .error .TokenMalformedError) ∧
    (token.well_formed = true → token.signed_with = key → ¬(token.exp < now) →
      get_validated_token_kinds token key now = .ok token.claims) := by
  unfold get_validated_token_kinds get_validated_token to_token_error
  refine ⟨?_, ?_, ?_, ?_⟩
  · intro hwf hsig
    simp [hwf, hsig]
  · intro hwf hsig hexp
    simp [hwf, hsig, hexp]
  · intro hwf
    simp [hwf]
  · intro hwf hsig hexp
    simp [hwf, hsig, hexp]

/-- Witness for claim C6 at concrete tokens. -/
theorem claim_C6_token_validation_witness :
    ((⟨true, "k1", 100, [("type", "download")]⟩ : SignedToken).well_formed = true ∧
      get_validated_token_kinds ⟨true, "k1", 100, [("type", "download")]⟩ "k2" 50 =
        .error .TokenSignatureError) ∧
    (get_validated_token_kinds ⟨true, "k1", 10, []⟩ "k1" 50 =
      .error .TokenExpiredError) ∧
    (get_validated_token_kinds ⟨false, "k1", 100, []⟩ "k1" 50 =
      .error .TokenMalformedError) ∧
    (get_validated_token_kinds ⟨true, "k1", 100, []⟩ "k1" 50 = .ok []) := by
  refine ⟨⟨rfl, ?_⟩, ?_, ?_, ?_⟩
  · exact (claim_C6_token_validation ⟨true, "k1", 100, [("type", "download")]⟩ "k2" 50).1
      rfl (by decide)
  · exact (claim_C6_token_validation ⟨true, "k1", 10, []⟩ "k1" 50).2.1 rfl rfl (by decide)
  · exact (claim_C6_token_validation ⟨false, "k1", 100, []⟩ "k1" 50).2.2.1 rfl
  · exact (claim_C6_token_validation ⟨true, "k1", 100, []⟩ "k1" 50).2.2.2 rfl rfl
      (by decide)

/-- Claim C8: the inbound event translator dispatches on the event type:
`files_to_register_type` validates the payload against
`FileInternallyRegistered` and calls `register_new_file` on it,
`files_to_delete_type` validates against `FileDeletionRequested` and calls
`delete_file` on it, and any other type fails the message. -/
theorem claim_C8_event_dispatch (cfg : EventSubTranslatorConfig)
    (payload : JsonObject) (type_ object_id : String) :
    (type_ = cfg.files_to_register_type →
      ∀ vp, payload.as_file_internally_registered = some vp →
        consume_validated cfg payload type_ object_id =
          .ok (.register_new_file
            ⟨vp.file_id, object_id, vp.decryption_secret_id, vp.decrypted_sha256,
              vp.decrypted_size, vp.upload_date⟩)) ∧
    (type_ ≠ cfg.files_to_register_type → type_ = cfg.files_to_delete_type →
      ∀ vp, payload.as_file_deletion_requested = some vp →
        consume_validated cfg payload type_ object_id = .ok (.delete_file vp.file_id)) ∧
    (type_ ≠ cfg.files_to_register_type → type_ ≠ cfg.files_to_delete_type →
      consume_validated cfg payload type_ object_id =
        .error (.UnexpectedEventTypeError type_)) := by
  unfold consume_validated
  refine ⟨?_, ?_, ?_⟩
  · intro hreg vp hvp
    simp [hreg, hvp]
  · intro hnreg hdel vp hvp
    have h1 : (type_ == cfg.files_to_register_type) = false := by
      simp [beq_eq_false_iff_ne, hnreg]
    have h2 : (type_ == cfg.files_to_delete_type) = true := by
      simp [hdel]
    simp [h1, h2, hvp]
  · intro hnreg hndel
    have h1 : (type_ == cfg.files_to_register_type) = false := by
      simp [beq_eq_false_iff_ne, hnreg]
    have h2 : (type_ == cfg.files_to_delete_type) = false := by
      simp [beq_eq_false_iff_ne, hndel]
    simp [h1, h2]

/-- Claim C1: accessing a registered file whose object is absent from the
outbox publishes exactly one `unstaged_download_requested` event, carrying the
object's derived self URI, its stored `s3_endpoint_alias` and the outbox
bucket, and raises `RetryAccessLaterError` with `retry_after` equal to the
configured `retry_access_after`; no other event is published, the state is
untouched, and the call does not return normally. -/
theorem claim_C1_unstaged_access (cfg : DataRepositoryConfig) (st : RepoState)
    (now : Int) (drs_id : String) (r0 : AccessTimeDrsObject)
    (storage : ObjectStorage)
    (hdao : dao_get_by_id st.dao drs_id = some r0)
    (hstor : storages_get st.storages r0.s3_endpoint_alias = some storage)
    (habsent : does_object_exist storage cfg.outbox_bucket r0.object_id = false) :
    access_drs_object cfg st now drs_id =
      ⟨.error (.RetryAccessLaterError cfg.retry_access_after), st,
        [.unstaged_download_requested (get_model_with_self_uri cfg r0.toDrsObject)
          r0.s3_endpoint_alias cfg.outbox_bucket]⟩ := by
  unfold access_drs_object
  simp [hdao, hstor, habsent]

/-- Witness for claim C1 at a concrete unstaged state. -/
theorem claim_C1_unstaged_access_witness :
    dao_get_by_id sample_state_unstaged.dao "f1" = some sample_record ∧
    access_drs_object sample_cfg sample_state_unstaged 5 "f1" =
      ⟨.error (.RetryAccessLaterError sample_cfg.retry_access_after),
        sample_state_unstaged,
        [.unstaged_download_requested
          (get_model_with_self_uri sample_cfg sample_record.toDrsObject)
          sample_record.s3_endpoint_alias sample_cfg.outbox_bucket]⟩ :=
  ⟨by decide, claim_C1_unstaged_access sample_cfg sample_state_unstaged 5 "f1"
    sample_record sample_storage_empty (by decide) (by decide) (by decide)⟩

/-- An object that passes the existence check has a size: the branch of
`access_drs_object` in which the size query fails after a successful
existence check is unreachable. -/
theorem does_object_exist_size_isSome (s : ObjectStorage) (b o : String)
    (h : does_object_exist s b o = true) : (get_object_size s b o).isSome := by
  unfold does_object_exist at h
  rw [List.any_eq_true] at h
  obtain ⟨x, hmem, hx⟩ := h
  unfold get_object_size
  rw [Option.isSome_map']
  rw [List.find?_isSome]
  exact ⟨x, hmem, hx⟩

/-- Claim C10: whenever `access_drs_object` raises, the repository state (in
particular the DAO, so the record's `last_accessed`) is unchanged: the update
happens only after the outbox existence check succeeds. -/
theorem claim_C10_error_frame (cfg : DataRepositoryConfig) (st : RepoState)
    (now : Int) (drs_id : String) (e : RepoError)
    (herr : (access_drs_object cfg st now drs_id).res = .error e) :
    (access_drs_object cfg st now drs_id).state = st := by
  unfold access_drs_object at herr ⊢
  cases hdao : dao_get_by_id st.dao drs_id with
  | none => simp [hdao]
  | some r0 =>
    simp only [hdao] at herr ⊢
    cases hstor : storages_get st.storages r0.toDrsObject.s3_endpoint_alias with
    | none => simp [hstor]
    | some storage =>
      simp only [hstor] at herr ⊢
      cases hex : does_object_exist storage cfg.outbox_bucket r0.toDrsObject.object_id with
      | false => simp [hex]
      | true =>
        simp only [hex, Bool.not_true, Bool.false_eq_true, if_false] at herr ⊢
        cases hupd : dao_update st.dao { r0 with last_accessed := now } with
        | none => simp [hupd]
        | some dao1 =>
          simp only [hupd] at herr ⊢
          cases hsz : get_object_size storage cfg.outbox_bucket r0.toDrsObject.object_id with
          | none =>
            have hsome := does_object_exist_size_isSome storage cfg.outbox_bucket
              r0.toDrsObject.object_id hex
            rw [hsz] at hsome
            simp at hsome
          | some n => simp [hsz] at herr

/-- Witness for claim C10 at a concrete erroring access. -/
theorem claim_C10_error_frame_witness :
    (access_drs_object sample_cfg sample_state_empty 5 "f1").res =
      .error (.DrsObjectNotFoundError "f1") ∧
    (access_drs_object sample_cfg sample_state_empty 5 "f1").state =
      sample_state_empty :=
  ⟨rfl, claim_C10_error_frame sample_cfg sample_state_empty 5 "f1"
    (.DrsObjectNotFoundError "f1") rfl⟩

/-- Claim C4, divergence theorem: on a registered object whose stored
`s3_endpoint_alias` is not among the configured object storages,
`access_drs_object` raises the plain `KeyError` of the dict lookup in
`ObjectStorages.__getitem__`, not the `StorageAliasNotConfiguredError` the
repository's ports and tests declare. -/
theorem claim_C4_alias_lookup_keyerror :
    (access_drs_object sample_cfg sample_state_noalias 0 "f1").res =
      .error (.KeyError "node1") ∧
    ∀ a : String,
      (access_drs_object sample_cfg sample_state_noalias 0 "f1").res ≠
        .error (.StorageAliasNotConfiguredError a) := by
  constructor
  · rfl
  · intro a
    have h : (access_drs_object sample_cfg sample_state_noalias 0 "f1").res =
        .error (.KeyError "node1") := rfl
    rw [h]
    intro hcontra
    simp at hcontra

/-- Replacing the record found under `id_` makes the replacement the record
found under `id_`. -/
theorem dao_find_map_replace (id_ : String) (r0 r1 : AccessTimeDrsObject)
    (hid : r1.file_id = id_) :
    ∀ dao : Dao, dao_get_by_id dao id_ = some r0 →
      dao_get_by_id (dao.map (fun x => if x.file_id == r1.file_id then r1 else x)) id_ =
        some r1 := by
  intro dao
  induction dao with
  | nil => intro h; simp [dao_get_by_id] at h
  | cons a tl ih =>
    intro h
    unfold dao_get_by_id at h ⊢
    simp only [List.map_cons, List.find?_cons] at h ⊢
    cases hpa : (a.file_id == id_) with
    | true =>
      have ha : a.file_id = id_ := beq_iff_eq.mp hpa
      have hcond : (a.file_id == r1.file_id) = true := by
        rw [beq_iff_eq, ha, hid]
      have hr1 : (r1.file_id == id_) = true := by
        rw [beq_iff_eq]; exact hid
      simp [hcond, hr1]
    | false =>
      have ha_ne : a.file_id ≠ id_ := beq_eq_false_iff_ne.mp hpa
      have hcond : (a.file_id == r1.file_id) = false :=
        beq_eq_false_iff_ne.mpr (fun hcon => ha_ne (hcon.trans hid))
      simp only [hpa] at h
      simp only [hcond, Bool.false_eq_true, if_false, hpa]
      exact ih h

/-- A record found under `id_` lets `dao_update` succeed with the replacement
visible under `id_`. -/
theorem dao_update_found (dao : Dao) (id_ : String) (r0 r1 : AccessTimeDrsObject)
    (hfind : dao_get_by_id dao id_ = some r0) (hid : r1.file_id = id_) :
    ∃ dao1, dao_update dao r1 = some dao1 ∧ dao_get_by_id dao1 id_ = some r1 := by
  have hfind2 : List.find? (fun r => r.file_id == id_) dao = some r0 := hfind
  have hr0 : r0.file_id = id_ := by
    have hp := List.find?_some hfind2
    exact beq_iff_eq.mp hp
  have hmem : r0 ∈ dao := List.mem_of_find?_eq_some hfind2
  have hany : dao.any (fun x => x.file_id == r1.file_id) = true := by
    rw [List.any_eq_true]
    exact ⟨r0, hmem, by rw [beq_iff_eq, hr0, hid]⟩
  refine ⟨dao.map (fun x => if x.file_id == r1.file_id then r1 else x), ?_, ?_⟩
  · unfold dao_update
    rw [if_pos hany]
  · exact dao_find_map_replace id_ r0 r1 hid dao hfind

/-- Claim C9: a successful access to a registered, staged file updates its DAO
record's `last_accessed` to the access instant, so a DAO read afterwards
yields a value at or after the pre-access instant, and (the wall clock being
monotone) `last_accessed` never decreases across successful accesses. -/
theorem claim_C9_last_accessed (cfg : DataRepositoryConfig) (st : RepoState)
    (now t0 : Int) (drs_id : String) (r0 : AccessTimeDrsObject)
    (storage : ObjectStorage)
    (hdao : dao_get_by_id st.dao drs_id = some r0)
    (hstor : storages_get st.storages r0.s3_endpoint_alias = some storage)
    (hstaged : does_object_exist storage cfg.outbox_bucket r0.object_id = true)
    (hpre : t0 ≤ now) (hclock : r0.last_accessed ≤ now) :
    (∃ v, (access_drs_object cfg st now drs_id).res = .ok v) ∧
    ∃ r1, dao_get_by_id (access_drs_object cfg st now drs_id).state.dao drs_id =
        some r1 ∧
      r1.last_accessed = now ∧ t0 ≤ r1.last_accessed ∧
      r0.last_accessed ≤ r1.last_accessed := by
  have hdao2 : List.find? (fun r => r.file_id == drs_id) st.dao = some r0 := hdao
  have hp := List.find?_some hdao2
  have hidfile : r0.file_id = drs_id := beq_iff_eq.mp hp
  obtain ⟨dao1, hupd, hfound⟩ := dao_update_found st.dao drs_id r0
    { r0 with last_accessed := now } hdao hidfile
  obtain ⟨n, hsz⟩ := Option.isSome_iff_exists.mp
    (does_object_exist_size_isSome storage cfg.outbox_bucket r0.object_id hstaged)
  unfold access_drs_object
  simp only [hdao, hstor, hstaged, Bool.not_true, Bool.false_eq_true, if_false, hupd,
    hsz]
  exact ⟨⟨_, rfl⟩, { r0 with last_accessed := now }, hfound, rfl, hpre, hclock⟩

/-- Witness for claim C9 at a concrete staged state. -/
theorem claim_C9_last_accessed_witness :
    does_object_exist sample_storage sample_cfg.outbox_bucket
      sample_record.object_id = true ∧
    (∃ v, (access_drs_object sample_cfg sample_state_staged 5 "f1").res = .ok v) ∧
    ∃ r1, dao_get_by_id
        (access_drs_object sample_cfg sample_state_staged 5 "f1").state.dao "f1" =
        some r1 ∧
      r1.last_accessed = 5 ∧ (3 : Int) ≤ r1.last_accessed ∧
      sample_record.last_accessed ≤ r1.last_accessed :=
  ⟨by decide, claim_C9_last_accessed sample_cfg sample_state_staged 5 3 "f1"
    sample_record sample_storage (by decide) (by decide) (by decide) (by decide)
    (by decide)⟩

/-- Counterexample to claim C5 as stated: inserting a record whose `file_id`
already exists does not raise `DuplicateEntryError` — `register_new_file`
wraps the DAO insert in no try/except, so the DAO's own
`ResourceAlreadyExistsError` propagates instead. -/
theorem claim_C5_register_counterexample :
    (register_new_file sample_cfg sample_state_staged 7 sample_base "o2" "node1").res =
      .error (.ResourceAlreadyExistsError "f1") ∧
    (register_new_file sample_cfg sample_state_staged 7 sample_base "o2" "node1").res ≠
      .error .DuplicateEntryError := by
  constructor
  · rfl
  · have h : (register_new_file sample_cfg sample_state_staged 7 sample_base "o2"
        "node1").res = .error (.ResourceAlreadyExistsError "f1") := rfl
    rw [h]
    intro hcontra
    simp at hcontra

/-- Claim C5 as amended: `register_new_file` lets the DAO's
`ResourceAlreadyExistsError` propagate when a record with the same `file_id`
exists (state untouched, nothing published); on a fresh `file_id` it inserts
an `AccessTimeDrsObject` with the newly generated `object_id` and
`last_accessed = now`, then publishes one `file_registered` event carrying
the derived self URI. -/
theorem claim_C5_register (cfg : DataRepositoryConfig) (st : RepoState) (now : Int)
    (file : DrsObjectBase) (object_id s3_endpoint_alias : String) :
    (st.dao.any (fun x => x.file_id == file.file_id) = true →
      register_new_file cfg st now file object_id s3_endpoint_alias =
        ⟨.error (.ResourceAlreadyExistsError file.file_id), st, []⟩) ∧
    (st.dao.any (fun x => x.file_id == file.file_id) = false →
      register_new_file cfg st now file object_id s3_endpoint_alias =
        ⟨.ok (),
          { st with dao := st.dao ++ [⟨⟨file, object_id, s3_endpoint_alias⟩, now⟩] },
          [.file_registered
            (get_model_with_self_uri cfg ⟨file, object_id, s3_endpoint_alias⟩)]⟩) := by
  unfold register_new_file dao_insert
  constructor
  · intro hdup
    simp [hdup]
  · intro hfresh
    simp [hfresh]

/-- Witness for the amended claim C5 at a concrete fresh registration. -/
theorem claim_C5_register_witness :
    sample_state_empty.dao.any (fun x => x.file_id == sample_base.file_id) = false ∧
    register_new_file sample_cfg sample_state_empty 7 sample_base "o2" "node1" =
      ⟨.ok (),
        { sample_state_empty with
          dao := sample_state_empty.dao ++ [⟨⟨sample_base, "o2", "node1"⟩, 7⟩] },
        [.file_registered
          (get_model_with_self_uri sample_cfg ⟨sample_base, "o2", "node1"⟩)]⟩ :=
  ⟨by decide, (claim_C5_register sample_cfg sample_state_empty 7 sample_base "o2"
    "node1").2 (by decide)⟩

/-- When the EKSS transport does not fail, the suppressed secret deletion
always succeeds and leaves exactly the other secrets. -/
theorem ekss_delete_suppressed (e : Ekss) (sid : String) (h : sid ∉ e.failing) :
    suppress_secret_not_found (delete_secret_from_ekss e sid) e =
      .ok { e with secrets := e.secrets.filter (fun s => !(s == sid)) } := by
  unfold suppress_secret_not_found delete_secret_from_ekss
  by_cases hs : sid ∈ e.secrets
  · simp [h, hs]
  · simp only [h, hs, if_neg, if_false]
    have hkeep : e.secrets.filter (fun s => !(s == sid)) = e.secrets :=
      List.filter_eq_self.mpr (fun a ha => by
        have hne : a ≠ sid := fun hcon => hs (hcon ▸ ha)
        simp [hne])
    simp [h, hs, hkeep]

/-- When the S3 layer does not fail, the suppressed object deletion always
succeeds and leaves exactly the other objects. -/
theorem object_delete_suppressed (s : ObjectStorage) (b o : String)
    (h : (b, o) ∉ s.failing) :
    suppress_object_not_found (delete_object s b o) s =
      .ok { s with
            objects := s.objects.filter
              (fun x => !(x.bucket_id == b && x.object_id == o)) } := by
  unfold suppress_object_not_found delete_object
  rw [if_neg h]
  by_cases hex : does_object_exist s b o = true
  · rw [if_pos hex]
  · have hall : ∀ x ∈ s.objects, ¬((x.bucket_id == b && x.object_id == o) = true) := by
      unfold does_object_exist at hex
      rw [Bool.not_eq_true, List.any_eq_false] at hex
      exact hex
    have hkeep : s.objects.filter (fun x => !(x.bucket_id == b && x.object_id == o)) =
        s.objects :=
      List.filter_eq_self.mpr (fun a ha => by
        have := hall a ha
        simp only [Bool.not_eq_true] at this
        simp [this])
    rw [if_neg hex, hkeep]

/-- Writing a storage back under a configured alias makes it the storage
found under that alias. -/
theorem find_set_alias (key : String) (s : ObjectStorage) :
    ∀ l : List (String × ObjectStorage),
      (l.find? (fun p => p.fst == key)).isSome = true →
      Option.map (fun p => p.snd)
        ((l.map (fun p => if p.fst == key then (p.fst, s) else p)).find?
          (fun p => p.fst == key)) = some s := by
  intro l
  induction l with
  | nil => intro h; simp at h
  | cons a tl ih =>
    intro h
    simp only [List.map_cons, List.find?_cons] at h ⊢
    cases hpa : (a.fst == key) with
    | true => simp [hpa]
    | false =>
      simp only [hpa, Bool.false_eq_true, if_false] at h ⊢
      exact ih h

/-- Reading `storages_get` after `storages_set` on a configured alias. -/
theorem storages_get_set_self (ss : ObjectStorages) (key : String)
    (s : ObjectStorage) (h : (storages_get ss key).isSome = true) :
    storages_get (storages_set ss key s) key = some s := by
  unfold storages_get at h ⊢
  unfold storages_set
  rw [Option.isSome_map'] at h
  exact find_set_alias key s ss.object_storages h

/-- After filtering out the matching objects, the existence check fails. -/
theorem does_object_exist_after_filter (l : List StoredObject) (b o : String) :
    (l.filter (fun x => !(x.bucket_id == b && x.object_id == o))).any
      (fun x => x.bucket_id == b && x.object_id == o) = false := by
  rw [List.any_eq_false]
  intro x hx
  rw [List.mem_filter] at hx
  obtain ⟨_, hpred⟩ := hx
  intro hcon
  rw [hcon] at hpred
  simp at hpred

/-- After `dao_delete`, the record is no longer found. -/
theorem dao_get_by_id_delete (dao : Dao) (fid : String) :
    dao_get_by_id (dao_delete dao fid) fid = none := by
  unfold dao_get_by_id dao_delete
  rw [List.find?_eq_none]
  intro x hx
  rw [List.mem_filter] at hx
  obtain ⟨_, hpred⟩ := hx
  intro hcon
  rw [hcon] at hpred
  simp at hpred

/-- The deleted secret is not among the remaining ones. -/
theorem secret_removed (l : List String) (sid : String) :
    sid ∉ l.filter (fun s => !(s == sid)) := by
  intro h
  rw [List.mem_filter] at h
  simp at h

/-- Claim C2: `delete_file` on an unknown `file_id` is a no-op (no error, no
state change, no event); the EKSS transport failure is not swallowed (only
`SecretNotFoundError` is); the S3 protocol failure is not swallowed (only
`ObjectNotFoundError` is); and on a registered `file_id` with a configured
alias and no external failure it deletes the secret, the outbox object and
the DAO row, and publishes exactly one `file_deleted` event. -/
theorem claim_C2_delete_file (cfg : DataRepositoryConfig) (st : RepoState)
    (file_id : String) :
    (dao_get_by_id st.dao file_id = none →
      delete_file cfg st file_id = ⟨.ok (), st, []⟩) ∧
    (∀ d, dao_get_by_id st.dao file_id = some d →
      d.decryption_secret_id ∈ st.ekss.failing →
      delete_file cfg st file_id = ⟨.error .RequestFailedError, st, []⟩) ∧
    (∀ d storage, dao_get_by_id st.dao file_id = some d →
      d.decryption_secret_id ∉ st.ekss.failing →
      storages_get st.storages d.s3_endpoint_alias = some storage →
      (cfg.outbox_bucket, d.object_id) ∈ storage.failing →
      (delete_file cfg st file_id).res = .error .ObjectStorageProtocolError ∧
      (delete_file cfg st file_id).events = []) ∧
    (∀ d storage, dao_get_by_id st.dao file_id = some d →
      d.decryption_secret_id ∉ st.ekss.failing →
      storages_get st.storages d.s3_endpoint_alias = some storage →
      (cfg.outbox_bucket, d.object_id) ∉ storage.failing →
      (delete_file cfg st file_id).res = .ok () ∧
      (delete_file cfg st file_id).events = [.file_deleted file_id] ∧
      dao_get_by_id (delete_file cfg st file_id).state.dao file_id = none ∧
      d.decryption_secret_id ∉ (delete_file cfg st file_id).state.ekss.secrets ∧
      ∃ storage1,
        storages_get (delete_file cfg st file_id).state.storages
          d.s3_endpoint_alias = some storage1 ∧
        does_object_exist storage1 cfg.outbox_bucket d.object_id = false) := by
  refine ⟨?_, ?_, ?_, ?_⟩
  · intro hnone
    unfold delete_file
    simp [hnone]
  · intro d hdao hfail
    unfold delete_file
    have hE : suppress_secret_not_found
        (delete_secret_from_ekss st.ekss d.decryption_secret_id) st.ekss =
        .error .RequestFailedError := by
      unfold suppress_secret_not_found delete_secret_from_ekss
      simp [hfail]
    simp [hdao, hE]
  · intro d storage hdao hnofail hstor hofail
    unfold delete_file
    have hE := ekss_delete_suppressed st.ekss d.decryption_secret_id hnofail
    have hO : suppress_object_not_found
        (delete_object storage cfg.outbox_bucket d.object_id) storage =
        .error .ObjectStorageProtocolError := by
      unfold suppress_object_not_found delete_object
      simp [hofail]
    simp [hdao, hE, hstor, hO]
  · intro d storage hdao hnofail hstor hofail
    unfold delete_file
    have hE := ekss_delete_suppressed st.ekss d.decryption_secret_id hnofail
    have hO := object_delete_suppressed storage cfg.outbox_bucket d.object_id hofail
    simp only [hdao, hE, hstor, hO]
    refine ⟨trivial, trivial, dao_get_by_id_delete st.dao file_id, ?_, ?_⟩
    · exact secret_removed st.ekss.secrets d.decryption_secret_id
    · refine ⟨{ storage with
          objects := storage.objects.filter
            (fun x => !(x.bucket_id == cfg.outbox_bucket && x.object_id == d.object_id)) },
        ?_, ?_⟩
      · exact storages_get_set_self st.storages d.s3_endpoint_alias _
          (by rw [hstor]; rfl)
      · exact does_object_exist_after_filter storage.objects cfg.outbox_bucket
          d.object_id

/-- Witness for claim C2: deleting the staged sample file. -/
theorem claim_C2_delete_file_witness :
    dao_get_by_id sample_state_staged.dao "f1" = some sample_record ∧
    ("s1" ∈ sample_state_staged.ekss.failing → False) ∧
    (delete_file sample_cfg sample_state_staged "f1").res = .ok () ∧
    (delete_file sample_cfg sample_state_staged "f1").events = [.file_deleted "f1"] ∧
    dao_get_by_id (delete_file sample_cfg sample_state_staged "f1").state.dao "f1" =
      none ∧
    "s1" ∉ (delete_file sample_cfg sample_state_staged "f1").state.ekss.secrets ∧
    ∃ storage1,
      storages_get (delete_file sample_cfg sample_state_staged "f1").state.storages
        "node1" = some storage1 ∧
      does_object_exist storage1 "outbox" "o1" = false := by
  have hmain := (claim_C2_delete_file sample_cfg sample_state_staged "f1").2.2.2
    sample_record sample_storage (by decide) (by decide) (by decide) (by decide)
  exact ⟨by decide, by decide, hmain.1, hmain.2.1, hmain.2.2.1, hmain.2.2.2.1,
    hmain.2.2.2.2⟩

/-- A listed object id is the id of some stored object of that bucket. -/
theorem mem_list_all_object_ids (s : ObjectStorage) (b oid : String) :
    oid ∈ list_all_object_ids s b ↔
      ∃ x, x ∈ s.objects ∧ x.bucket_id = b ∧ x.object_id = oid := by
  unfold list_all_object_ids
  rw [List.mem_map]
  constructor
  · rintro ⟨x, hx, hxo⟩
    rw [List.mem_filter] at hx
    exact ⟨x, hx.1, beq_iff_eq.mp hx.2, hxo⟩
  · rintro ⟨x, hmem, hb, ho⟩
    exact ⟨x, List.mem_filter.mpr ⟨hmem, by rw [beq_iff_eq]; exact hb⟩, ho⟩

/-- A witnessed stored object passes the existence check. -/
theorem exists_to_does_object_exist (s : ObjectStorage) (b oid : String)
    (h : ∃ x, x ∈ s.objects ∧ x.bucket_id = b ∧ x.object_id = oid) :
    does_object_exist s b oid = true := by
  obtain ⟨x, hmem, hb, ho⟩ := h
  unfold does_object_exist
  rw [List.any_eq_true]
  refine ⟨x, hmem, ?_⟩
  rw [Bool.and_eq_true, beq_iff_eq, beq_iff_eq]
  exact ⟨hb, ho⟩

/-- Successful outcome of `delete_object` when the pair is not failing and the
object is present. -/
theorem delete_object_ok (s : ObjectStorage) (b oid : String)
    (hnofail : (b, oid) ∉ s.failing) (hex : does_object_exist s b oid = true) :
    delete_object s b oid = .ok
      { s with
        objects := s.objects.filter
          (fun x => !(x.bucket_id == b && x.object_id == oid)) } := by
  unfold delete_object
  rw [if_neg hnofail, if_pos hex]

/-- Objects witnessing the remaining worklist survive the deletion of the
current id. -/
theorem exists_object_after_delete (s : ObjectStorage) (b oid : String)
    (rest : List String) (hnotin : oid ∉ rest)
    (hexists : ∀ o2 ∈ oid :: rest,
      ∃ x, x ∈ s.objects ∧ x.bucket_id = b ∧ x.object_id = o2) :
    ∀ o2 ∈ rest,
      ∃ x, x ∈ s.objects.filter (fun x => !(x.bucket_id == b && x.object_id == oid)) ∧
        x.bucket_id = b ∧ x.object_id = o2 := by
  intro o2 ho2
  obtain ⟨x, hmem, hb, ho⟩ := hexists o2 (List.mem_cons_of_mem _ ho2)
  refine ⟨x, List.mem_filter.mpr ⟨hmem, ?_⟩, hb, ho⟩
  have hne : o2 ≠ oid := fun hcon => hnotin (hcon ▸ ho2)
  have hfa : (x.object_id == oid) = false :=
    beq_eq_false_iff_ne.mpr (by rw [ho]; exact hne)
  simp [hfa]

/-- Splitting the cleanup filter at an aged head id. -/
theorem cleanup_pred_split_aged (b oid : String) (rest : List String) (dao : Dao)
    (threshold : Int) (x : StoredObject) (haged : aged dao threshold oid = true) :
    (!(x.bucket_id == b && rest.contains x.object_id &&
        aged dao threshold x.object_id) &&
      !(x.bucket_id == b && x.object_id == oid)) =
    !(x.bucket_id == b && (oid :: rest).contains x.object_id &&
      aged dao threshold x.object_id) := by
  rw [List.contains_cons]
  by_cases hxo : x.object_id = oid
  · have h1 : (x.object_id == oid) = true := beq_iff_eq.mpr hxo
    have h2 : aged dao threshold x.object_id = true := by rw [hxo]; exact haged
    rw [h1, h2]
    cases hxb : (x.bucket_id == b) <;> cases hrc : rest.contains x.object_id <;> simp
  · have h1 : (x.object_id == oid) = false := beq_eq_false_iff_ne.mpr hxo
    rw [h1]
    simp

/-- Splitting the cleanup filter at a non-aged head id. -/
theorem cleanup_pred_split_notaged (b oid : String) (rest : List String) (dao : Dao)
    (threshold : Int) (x : StoredObject) (haged : aged dao threshold oid = false) :
    (!(x.bucket_id == b && rest.contains x.object_id &&
        aged dao threshold x.object_id)) =
    !(x.bucket_id == b && (oid :: rest).contains x.object_id &&
      aged dao threshold x.object_id) := by
  rw [List.contains_cons]
  by_cases hxo : x.object_id = oid
  · have h1 : (x.object_id == oid) = true := beq_iff_eq.mpr hxo
    have h2 : aged dao threshold x.object_id = false := by rw [hxo]; exact haged
    rw [h1, h2]
    simp
  · have h1 : (x.object_id == oid) = false := beq_eq_false_iff_ne.mpr hxo
    rw [h1]
    simp

/-- Invariant of the cleanup sweep when every listed id has a DAO record: the
sweep succeeds, removes from the storage exactly the outbox objects of the
worklist that are aged, and keeps the failure oracle. -/
theorem cleanup_loop_ok (cfg : DataRepositoryConfig) (dao : Dao) (threshold : Int) :
    ∀ (ids : List String) (storage : ObjectStorage),
      ids.Nodup →
      (∀ oid ∈ ids, (cfg.outbox_bucket, oid) ∉ storage.failing) →
      (∀ oid ∈ ids, ∃ x, x ∈ storage.objects ∧ x.bucket_id = cfg.outbox_bucket ∧
        x.object_id = oid) →
      (∀ oid ∈ ids, (dao_find_by_object_id dao oid).isSome = true) →
      (cleanup_loop cfg dao threshold storage ids).fst = .ok () ∧
      (cleanup_loop cfg dao threshold storage ids).snd.objects =
        storage.objects.filter (fun x => !(x.bucket_id == cfg.outbox_bucket &&
          ids.contains x.object_id && aged dao threshold x.object_id)) ∧
      (cleanup_loop cfg dao threshold storage ids).snd.failing = storage.failing := by
  intro ids
  induction ids with
  | nil =>
    intro storage _ _ _ _
    refine ⟨rfl, ?_, rfl⟩
    symm
    apply List.filter_eq_self.mpr
    intro a _
    simp
  | cons oid rest ih =>
    intro storage hnodup hnofail hexists hrecords
    obtain ⟨d, hd⟩ := Option.isSome_iff_exists.mp (hrecords oid (by simp))
    have hnodup_rest : rest.Nodup := (List.nodup_cons.mp hnodup).2
    have hoid_not_rest : oid ∉ rest := (List.nodup_cons.mp hnodup).1
    unfold cleanup_loop
    simp only [hd]
    by_cases hag : d.last_accessed ≤ threshold
    · rw [if_pos hag]
      have haged : aged dao threshold oid = true := by
        unfold aged
        rw [hd]
        exact decide_eq_true hag
      have hex := exists_to_does_object_exist storage cfg.outbox_bucket oid
        (hexists oid (by simp))
      simp only [delete_object_ok storage cfg.outbox_bucket oid
        (hnofail oid (by simp)) hex]
      have ihr := ih
        { storage with
          objects := storage.objects.filter
            (fun x => !(x.bucket_id == cfg.outbox_bucket && x.object_id == oid)) }
        hnodup_rest
        (fun o2 ho2 => hnofail o2 (List.mem_cons_of_mem _ ho2))
        (exists_object_after_delete storage cfg.outbox_bucket oid rest
          hoid_not_rest hexists)
        (fun o2 ho2 => hrecords o2 (List.mem_cons_of_mem _ ho2))
      refine ⟨ihr.1, ?_, ihr.2.2⟩
      rw [ihr.2.1]
      rw [List.filter_filter]
      exact List.filter_congr (fun x _ =>
        cleanup_pred_split_aged cfg.outbox_bucket oid rest dao threshold x haged)
    · rw [if_neg hag]
      have haged : aged dao threshold oid = false := by
        unfold aged
        rw [hd]
        exact decide_eq_false hag
      have ihr := ih storage hnodup_rest
        (fun o2 ho2 => hnofail o2 (List.mem_cons_of_mem _ ho2))
        (fun o2 ho2 => hexists o2 (List.mem_cons_of_mem _ ho2))
        (fun o2 ho2 => hrecords o2 (List.mem_cons_of_mem _ ho2))
      refine ⟨ihr.1, ?_, ihr.2.2⟩
      rw [ihr.2.1]
      exact List.filter_congr (fun x _ =>
        cleanup_pred_split_notaged cfg.outbox_bucket oid rest dao threshold x haged)

/-- When some listed id has no DAO record (and nothing else fails first), the
cleanup sweep aborts with a `CleanupError` naming an unmatched id. -/
theorem cleanup_loop_missing (cfg : DataRepositoryConfig) (dao : Dao)
    (threshold : Int) :
    ∀ (ids : List String) (storage : ObjectStorage),
      ids.Nodup →
      (∀ oid ∈ ids, (cfg.outbox_bucket, oid) ∉ storage.failing) →
      (∀ oid ∈ ids, ∃ x, x ∈ storage.objects ∧ x.bucket_id = cfg.outbox_bucket ∧
        x.object_id = oid) →
      (∃ oid, oid ∈ ids ∧ dao_find_by_object_id dao oid = none) →
      ∃ oid2, (cleanup_loop cfg dao threshold storage ids).fst =
          .error (.CleanupError oid2) ∧
        dao_find_by_object_id dao oid2 = none := by
  intro ids
  induction ids with
  | nil =>
    intro storage _ _ _ hmiss
    obtain ⟨oid, hmem, _⟩ := hmiss
    simp at hmem
  | cons oid rest ih =>
    intro storage hnodup hnofail hexists hmiss
    have hnodup_rest : rest.Nodup := (List.nodup_cons.mp hnodup).2
    have hoid_not_rest : oid ∉ rest := (List.nodup_cons.mp hnodup).1
    unfold cleanup_loop
    cases hd : dao_find_by_object_id dao oid with
    | none =>
      refine ⟨oid, ?_, hd⟩
      simp only [hd]
    | some d =>
      obtain ⟨om, hom_mem, hom_none⟩ := hmiss
      have hom_rest : om ∈ rest := by
        rcases List.mem_cons.mp hom_mem with h | h
        · exfalso
          rw [h] at hom_none
          rw [hom_none] at hd
          cases hd
        · exact h
      simp only [hd]
      by_cases hag : d.last_accessed ≤ threshold
      · rw [if_pos hag]
        have hex := exists_to_does_object_exist storage cfg.outbox_bucket oid
          (hexists oid (by simp))
        simp only [delete_object_ok storage cfg.outbox_bucket oid
          (hnofail oid (by simp)) hex]
        exact ih _ hnodup_rest
          (fun o2 ho2 => hnofail o2 (List.mem_cons_of_mem _ ho2))
          (exists_object_after_delete storage cfg.outbox_bucket oid rest
            hoid_not_rest hexists)
          ⟨om, hom_rest, hom_none⟩
      · rw [if_neg hag]
        exact ih storage hnodup_rest
          (fun o2 ho2 => hnofail o2 (List.mem_cons_of_mem _ ho2))
          (fun o2 ho2 => hexists o2 (List.mem_cons_of_mem _ ho2))
          ⟨om, hom_rest, hom_none⟩

/-- Claim C3: on a sweep over outbox ids each having a DAO record, cleanup
removes from the outbox exactly the objects whose record's `last_accessed` is
at or before `now - cache_timeout` days, deletes no DAO rows (and publishes
nothing); an outbox id with no matching DAO record makes the sweep raise
`CleanupError` naming an unmatched id. -/
theorem claim_C3_cleanup (cfg : DataRepositoryConfig) (st : RepoState) (now : Int)
    (s3_endpoint_alias : String) (storage : ObjectStorage)
    (hstor : storages_get st.storages s3_endpoint_alias = some storage)
    (hnodup : (list_all_object_ids storage cfg.outbox_bucket).Nodup)
    (hnofail : ∀ oid ∈ list_all_object_ids storage cfg.outbox_bucket,
      (cfg.outbox_bucket, oid) ∉ storage.failing) :
    (cleanup_outbox cfg st now s3_endpoint_alias).state.dao = st.dao ∧
    (cleanup_outbox cfg st now s3_endpoint_alias).events = [] ∧
    ((∀ oid ∈ list_all_object_ids storage cfg.outbox_bucket,
        (dao_find_by_object_id st.dao oid).isSome = true) →
      (cleanup_outbox cfg st now s3_endpoint_alias).res = .ok () ∧
      ∃ storage1,
        storages_get (cleanup_outbox cfg st now s3_endpoint_alias).state.storages
          s3_endpoint_alias = some storage1 ∧
        storage1.objects = storage.objects.filter
          (fun x => !(x.bucket_id == cfg.outbox_bucket &&
            aged st.dao (now - cfg.cache_timeout * 86400) x.object_id))) ∧
    ((∃ oid, oid ∈ list_all_object_ids storage cfg.outbox_bucket ∧
        dao_find_by_object_id st.dao oid = none) →
      ∃ oid2, (cleanup_outbox cfg st now s3_endpoint_alias).res =
          .error (.CleanupError oid2) ∧
        dao_find_by_object_id st.dao oid2 = none) := by
  have hexists : ∀ oid ∈ list_all_object_ids storage cfg.outbox_bucket,
      ∃ x, x ∈ storage.objects ∧ x.bucket_id = cfg.outbox_bucket ∧
        x.object_id = oid :=
    fun oid ho => (mem_list_all_object_ids storage cfg.outbox_bucket oid).mp ho
  unfold cleanup_outbox
  simp only [hstor]
  refine ⟨trivial, trivial, ?_, ?_⟩
  · intro hrecords
    have hok := cleanup_loop_ok cfg st.dao (now - cfg.cache_timeout * 86400)
      (list_all_object_ids storage cfg.outbox_bucket) storage hnodup hnofail
      hexists hrecords
    refine ⟨hok.1, ?_⟩
    refine ⟨(cleanup_loop cfg st.dao (now - cfg.cache_timeout * 86400) storage
      (list_all_object_ids storage cfg.outbox_bucket)).snd, ?_, ?_⟩
    · exact storages_get_set_self st.storages s3_endpoint_alias _
        (by rw [hstor]; rfl)
    · rw [hok.2.1]
      refine List.filter_congr (fun x hx => ?_)
      by_cases hxb : x.bucket_id = cfg.outbox_bucket
      · have hb : (x.bucket_id == cfg.outbox_bucket) = true := beq_iff_eq.mpr hxb
        have hmem : x.object_id ∈ list_all_object_ids storage cfg.outbox_bucket :=
          (mem_list_all_object_ids storage cfg.outbox_bucket x.object_id).mpr
            ⟨x, hx, hxb, rfl⟩
        have hc : (list_all_object_ids storage cfg.outbox_bucket).contains
            x.object_id = true := List.elem_iff.mpr hmem
        rw [hb, hc]
        simp
      · have hb : (x.bucket_id == cfg.outbox_bucket) = false :=
          beq_eq_false_iff_ne.mpr hxb
        rw [hb]
        simp
  · intro hmiss
    exact cleanup_loop_missing cfg st.dao (now - cfg.cache_timeout * 86400)
      (list_all_object_ids storage cfg.outbox_bucket) storage hnodup hnofail
      hexists hmiss

/-- Witness for claim C3: the seven-day sweep at day ten removes the object
last accessed at day two and keeps the one from day five, with DAO rows
preserved. -/
theorem claim_C3_cleanup_witness :
    storages_get sample_state_cleanup.storages "node1" = some sample_storage_two ∧
    (cleanup_outbox sample_cfg sample_state_cleanup 864000 "node1").state.dao =
      sample_state_cleanup.dao ∧
    (cleanup_outbox sample_cfg sample_state_cleanup 864000 "node1").events = [] ∧
    (cleanup_outbox sample_cfg sample_state_cleanup 864000 "node1").res = .ok () ∧
    ∃ storage1,
      storages_get
        (cleanup_outbox sample_cfg sample_state_cleanup 864000 "node1").state.storages
        "node1" = some storage1 ∧
      storage1.objects = sample_storage_two.objects.filter
        (fun x => !(x.bucket_id == sample_cfg.outbox_bucket &&
          aged sample_state_cleanup.dao (864000 - sample_cfg.cache_timeout * 86400)
            x.object_id)) := by
  have hmain := claim_C3_cleanup sample_cfg sample_state_cleanup 864000 "node1"
    sample_storage_two (by decide) (by decide) (by decide)
  have hok := hmain.2.2.1 (by decide)
  exact ⟨by decide, hmain.1, hmain.2.1, hok.1, hok.2⟩

/-- Witness for claim C8 at concrete events. -/
theorem claim_C8_event_dispatch_witness :
    (consume_validated ⟨"t_reg", "reg", "t_del", "del"⟩
      ⟨some ⟨"f9", "s9", "h9", 5, 3⟩, none⟩ "reg" "o9" =
        .ok (.register_new_file ⟨"f9", "o9", "s9", "h9", 5, 3⟩)) ∧
    (consume_validated ⟨"t_reg", "reg", "t_del", "del"⟩
      ⟨none, some ⟨"f9"⟩⟩ "del" "o9" = .ok (.delete_file "f9")) ∧
    (consume_validated ⟨"t_reg", "reg", "t_del", "del"⟩
      ⟨none, none⟩ "other" "o9" = .error (.UnexpectedEventTypeError "other")) := by
  refine ⟨?_, ?_, ?_⟩
  · exact (claim_C8_event_dispatch ⟨"t_reg", "reg", "t_del", "del"⟩
      ⟨some ⟨"f9", "s9", "h9", 5, 3⟩, none⟩ "reg" "o9").1 rfl _ rfl
  · exact (claim_C8_event_dispatch ⟨"t_reg", "reg", "t_del", "del"⟩
      ⟨none, some ⟨"f9"⟩⟩ "del" "o9").2.1 (by decide) rfl _ rfl
  · exact (claim_C8_event_dispatch ⟨"t_reg", "reg", "t_del", "del"⟩
      ⟨none, none⟩ "other" "o9").2.2 (by decide) (by decide)



